import Mathlib

/-!
# Verification of the taco autosize script

Shallow embedding of `src/src/autosize.js`, which contains two variants of a
`_adjust` measurement function plus an `onload` handler that registers a
ResizeObserver. Variant A (lines 1-30) sums the body's computed-style margins
and borders with the body's scrollWidth and takes the root element's bounding
client rect height; Variant B (lines 31-57) forwards twice the root element's
offset dimensions. Both forward the resulting pair to the external operation
`_rpc_adjustWindowToContent`.
-/

namespace Taco

/-- A JavaScript number as this script can produce one: either NaN (the result
of `parseFloat` on an absent or malformed computed-style string) or an ordinary
finite numeric value, modelled as an exact rational. -/
inductive JsNum where
  | nan : JsNum
  | num : ℚ → JsNum
deriving DecidableEq

namespace JsNum

/-- JavaScript `+` restricted to numbers: NaN propagates through addition,
otherwise the addition is exact. -/
def add : JsNum → JsNum → JsNum
  | nan, _ => nan
  | num _, nan => nan
  | num a, num b => num (a + b)

/-- JavaScript `*` restricted to numbers: NaN propagates through
multiplication, otherwise the multiplication is exact. -/
def mul : JsNum → JsNum → JsNum
  | nan, _ => nan
  | num _, nan => nan
  | num a, num b => num (a * b)

/-- The spec's Dimensions invariant for a single scalar: the value is an
ordinary (non-NaN) number and is non-negative. -/
def nonnegReal : JsNum → Prop
  | nan => False
  | num q => 0 ≤ q

instance : DecidablePred nonnegReal := fun n =>
  match n with
  | nan => isFalse id
  | num q => decidable_of_iff (0 ≤ q) Iff.rfl

theorem nan_add (b : JsNum) : JsNum.add nan b = nan := rfl

theorem add_nan (a : JsNum) : JsNum.add a nan = nan := by
  cases a <;> rfl

theorem nonnegReal_add {a b : JsNum} (ha : a.nonnegReal) (hb : b.nonnegReal) :
    (a.add b).nonnegReal := by
  cases a with
  | nan => exact ha.elim
  | num x =>
    cases b with
    | nan => exact hb.elim
    | num y => exact add_nonneg ha hb

end JsNum

/-- The document geometry that `_adjust` reads: the body's computed-style
margins and borders after `parseFloat` (each possibly NaN), the body's
`scrollWidth`, the root element's `getBoundingClientRect().height`, and the
root element's `offsetWidth`/`offsetHeight` (DOM layout queries, which are
always ordinary numbers, hence plain rationals). -/
structure Geometry where
  marginTop : JsNum
  marginRight : JsNum
  marginBottom : JsNum
  marginLeft : JsNum
  borderTop : JsNum
  borderRight : JsNum
  borderBottom : JsNum
  borderLeft : JsNum
  scrollWidth : ℚ
  rectHeight : ℚ
  offsetWidth : ℚ
  offsetHeight : ℚ
deriving DecidableEq

/-- Variant A `_adjust` (autosize.js lines 1-21): the (width, height) pair it
forwards to `_rpc_adjustWindowToContent`. Width is
`ml + bl + document.body.scrollWidth + br + mr`, associated to the left as in
the source; height is `document.documentElement.getBoundingClientRect().height`.
The top/bottom margins and borders are parsed by the source (lines 6-7) but do
not enter either forwarded value (line 9 is commented out). -/
def adjustA (g : Geometry) : JsNum × JsNum :=
  ((((g.marginLeft.add g.borderLeft).add (JsNum.num g.scrollWidth)).add
      g.borderRight).add g.marginRight,
    JsNum.num g.rectHeight)

/-- Variant B `_adjust` (autosize.js lines 31-48): the (width, height) pair it
forwards, namely `documentElement.offsetWidth * 2` and
`documentElement.offsetHeight * 2`. -/
def adjustB (g : Geometry) : JsNum × JsNum :=
  ((JsNum.num g.offsetWidth).mul (JsNum.num 2),
    (JsNum.num g.offsetHeight).mul (JsNum.num 2))

/-- The DOM nodes this script ever passes to `ResizeObserver.observe`. -/
inductive DomNode where
  | documentElement
  | body
deriving DecidableEq

/-- The node Variant A's onload handler observes (line 29:
`resizeObserver.observe(document.documentElement)`). -/
def observeTargetA : DomNode := DomNode.documentElement

/-- The node Variant B's onload handler observes (line 56:
`resizeObserver.observe(document.body)`). -/
def observeTargetB : DomNode := DomNode.body

/-- The primitive effects one invocation of `_adjust` can perform on its
environment, in source order. `writeDocument` stands for any mutation of the
document (element geometry, computed styles, DOM structure); neither variant
ever emits it. -/
inductive Effect where
  | readComputedStyleBody : Effect
  | readScrollWidthBody : Effect
  | readBoundingRectRoot : Effect
  | readOffsetWidthRoot : Effect
  | readOffsetHeightRoot : Effect
  | writeDocument : Effect
  | rpcAdjustWindowToContent : JsNum → JsNum → Effect
deriving DecidableEq

/-- Whether an effect is the outbound `_rpc_adjustWindowToContent` call. -/
def Effect.isRpc : Effect → Bool
  | rpcAdjustWindowToContent _ _ => true
  | _ => false

/-- The effect trace of one Variant A `_adjust` invocation, transcribed from
lines 5-20: read the body's computed style, read the body's scrollWidth, read
the root's bounding rect, then make the single forwarding call. -/
def adjustA_effects (g : Geometry) : List Effect :=
  [Effect.readComputedStyleBody, Effect.readScrollWidthBody,
    Effect.readBoundingRectRoot,
    Effect.rpcAdjustWindowToContent (adjustA g).1 (adjustA g).2]

/-- The effect trace of one Variant B `_adjust` invocation, transcribed from
lines 41-47: read the root's offset dimensions, then make the single
forwarding call. -/
def adjustB_effects (g : Geometry) : List Effect :=
  [Effect.readOffsetWidthRoot, Effect.readOffsetHeightRoot,
    Effect.rpcAdjustWindowToContent (adjustB g).1 (adjustB g).2]

/-- The state an `_adjust` invocation can touch: the document geometry and the
log of pairs forwarded so far to the host window manager. -/
structure World where
  geom : Geometry
  rpcLog : List (JsNum × JsNum)
deriving DecidableEq

/-- Running Variant A `_adjust` on a world: it appends exactly one forwarding
call and changes nothing else. -/
def adjustA_run (w : World) : World :=
  { w with rpcLog := w.rpcLog ++ [adjustA w.geom] }

/-- Running Variant B `_adjust` on a world. -/
def adjustB_run (w : World) : World :=
  { w with rpcLog := w.rpcLog ++ [adjustB w.geom] }

/-- The environment signals relevant to the onload handler: the document load
event and a box-size change of the observed element. -/
inductive Event where
  | load
  | change
deriving DecidableEq

/-- Number of forwarding calls made while a stream of environment events is
processed, starting with `k` registered observers. A `load` event runs the
onload handler (lines 24-30 / 51-57): a ResizeObserver is created and
`observe` is called; per the ResizeObserver specification the newly observed
element delivers one initial notification, whose callback
(`entries => _adjust()`) makes exactly one forwarding call. A `change` event
delivers one coalesced notification to each registered observer, each
notification making exactly one forwarding call; with no observer registered
it delivers nothing. -/
def rpcCalls : ℕ → List Event → ℕ
  | _, [] => 0
  | k, Event.load :: es => 1 + rpcCalls (k + 1) es
  | k, Event.change :: es => k + rpcCalls k es

theorem rpcCalls_append_of_no_load (pre rest : List Event)
    (h : Event.load ∉ pre) : rpcCalls 0 (pre ++ rest) = rpcCalls 0 rest := by
  induction pre with
  | nil => rfl
  | cons e t ih =>
    simp only [List.mem_cons, not_or] at h
    cases e with
    | load => exact absurd rfl h.1
    | change => simpa [rpcCalls] using ih h.2

theorem rpcCalls_one_of_no_load (es : List Event) (h : Event.load ∉ es) :
    rpcCalls 1 es = es.count Event.change := by
  induction es with
  | nil => rfl
  | cons e t ih =>
    simp only [List.mem_cons, not_or] at h
    cases e with
    | load => exact absurd rfl h.1
    | change =>
      have ht := ih h.2
      simp [rpcCalls, List.count_cons, ht]
      omega

theorem rpcCalls_zero_of_no_load (es : List Event) (h : Event.load ∉ es) :
    rpcCalls 0 es = 0 := by
  induction es with
  | nil => rfl
  | cons e t ih =>
    simp only [List.mem_cons, not_or] at h
    cases e with
    | load => exact absurd rfl h.1
    | change => simpa [rpcCalls] using ih h.2

/-- Geometry for the C6 counterexample: `marginLeft` parsed to NaN, every
other input an ordinary non-negative value. -/
def nanMarginGeom : Geometry :=
  { marginTop := JsNum.num 0, marginRight := JsNum.num 0,
    marginBottom := JsNum.num 0, marginLeft := JsNum.nan,
    borderTop := JsNum.num 0, borderRight := JsNum.num 0,
    borderBottom := JsNum.num 0, borderLeft := JsNum.num 0,
    scrollWidth := 300, rectHeight := 200, offsetWidth := 300,
    offsetHeight := 200 }

/-- Geometry for the C7 counterexample: `marginTop` parsed to NaN, all four
width-contributing components ordinary numbers (the spec's 324 scenario). -/
def nanTopGeom : Geometry :=
  { marginTop := JsNum.nan, marginRight := JsNum.num 10,
    marginBottom := JsNum.num 0, marginLeft := JsNum.num 10,
    borderTop := JsNum.num 0, borderRight := JsNum.num 2,
    borderBottom := JsNum.num 0, borderLeft := JsNum.num 2,
    scrollWidth := 300, rectHeight := 200, offsetWidth := 0,
    offsetHeight := 0 }

/-- Geometry for the C10 witness: an ordinary fully numeric document. -/
def plainGeom : Geometry :=
  { marginTop := JsNum.num 1, marginRight := JsNum.num 2,
    marginBottom := JsNum.num 3, marginLeft := JsNum.num 4,
    borderTop := JsNum.num 5, borderRight := JsNum.num 6,
    borderBottom := JsNum.num 7, borderLeft := JsNum.num 8,
    scrollWidth := 100, rectHeight := 50, offsetWidth := 120,
    offsetHeight := 60 }

def plainWorld1 : World := { geom := plainGeom, rpcLog := [] }

def plainWorld2 : World :=
  { geom := plainGeom, rpcLog := [(JsNum.num 9, JsNum.num 9)] }

/-- Claim C1: for every assignment of non-negative numeric values to the body's
left/right margins, left/right borders and scroll width, Variant A computes
width as exactly left margin + left border + scrollWidth + right border +
right margin, and height as exactly the root element's bounding-client-rect
height. -/
theorem adjustA_exact_sum (mt mr mb ml bt br bb bl sw rh ow oh : ℚ)
    (hml : 0 ≤ ml) (hbl : 0 ≤ bl) (hbr : 0 ≤ br) (hmr : 0 ≤ mr)
    (hsw : 0 ≤ sw) :
    adjustA
      { marginTop := JsNum.num mt, marginRight := JsNum.num mr,
        marginBottom := JsNum.num mb, marginLeft := JsNum.num ml,
        borderTop := JsNum.num bt, borderRight := JsNum.num br,
        borderBottom := JsNum.num bb, borderLeft := JsNum.num bl,
        scrollWidth := sw, rectHeight := rh, offsetWidth := ow,
        offsetHeight := oh }
      = (JsNum.num (ml + bl + sw + br + mr), JsNum.num rh) := rfl

/-- Claim C1 witness, the spec scenario: marginLeft=10, borderLeft=2,
scrollWidth=300, borderRight=2, marginRight=10 gives width 324 (height here
the rect height 500). -/
theorem adjustA_exact_sum_witness :
    adjustA
      { marginTop := JsNum.num 0, marginRight := JsNum.num 10,
        marginBottom := JsNum.num 0, marginLeft := JsNum.num 10,
        borderTop := JsNum.num 0, borderRight := JsNum.num 2,
        borderBottom := JsNum.num 0, borderLeft := JsNum.num 2,
        scrollWidth := 300, rectHeight := 500, offsetWidth := 0,
        offsetHeight := 0 }
      = (JsNum.num 324, JsNum.num 500) := by
  have h := adjustA_exact_sum 0 10 0 10 0 2 0 2 300 500 0 0
    (by norm_num) (by norm_num) (by norm_num) (by norm_num) (by norm_num)
  rw [h]
  norm_num

/-- Claim C2: for every assignment of non-negative numeric values to the root
element's offset dimensions, Variant B forwards exactly
(2 * offsetWidth, 2 * offsetHeight), in that order. -/
theorem adjustB_doubles (mt mr mb ml bt br bb bl : JsNum) (sw rh ow oh : ℚ)
    (how : 0 ≤ ow) (hoh : 0 ≤ oh) :
    adjustB
      { marginTop := mt, marginRight := mr, marginBottom := mb,
        marginLeft := ml, borderTop := bt, borderRight := br,
        borderBottom := bb, borderLeft := bl, scrollWidth := sw,
        rectHeight := rh, offsetWidth := ow, offsetHeight := oh }
      = (JsNum.num (2 * ow), JsNum.num (2 * oh)) := by
  simp [adjustB, JsNum.mul, mul_comm]

/-- Claim C2 witness, the spec scenario: offsetWidth=400, offsetHeight=200
forwards (800, 400). -/
theorem adjustB_doubles_witness :
    adjustB
      { marginTop := JsNum.num 0, marginRight := JsNum.num 0,
        marginBottom := JsNum.num 0, marginLeft := JsNum.num 0,
        borderTop := JsNum.num 0, borderRight := JsNum.num 0,
        borderBottom := JsNum.num 0, borderLeft := JsNum.num 0,
        scrollWidth := 0, rectHeight := 0, offsetWidth := 400,
        offsetHeight := 200 }
      = (JsNum.num 800, JsNum.num 400) := by
  have h := adjustB_doubles (JsNum.num 0) (JsNum.num 0) (JsNum.num 0)
    (JsNum.num 0) (JsNum.num 0) (JsNum.num 0) (JsNum.num 0) (JsNum.num 0)
    0 0 400 200 (by norm_num) (by norm_num)
  rw [h]
  norm_num

/-- Claim C3: the two variants are mutually inconsistent policies — there is a
document geometry, consistent with one rendered document (non-negative values,
body flush with the root: zero left/right margins and borders, scrollWidth
equal to offsetWidth and rect height equal to offsetHeight), on which the two
variants forward different (width, height) pairs. -/
theorem variants_inconsistent :
    ∃ g : Geometry,
      g.marginLeft = JsNum.num 0 ∧ g.marginRight = JsNum.num 0 ∧
      g.borderLeft = JsNum.num 0 ∧ g.borderRight = JsNum.num 0 ∧
      g.scrollWidth = g.offsetWidth ∧ g.rectHeight = g.offsetHeight ∧
      0 ≤ g.scrollWidth ∧ 0 ≤ g.rectHeight ∧
      adjustA g ≠ adjustB g := by
  refine ⟨{ marginTop := JsNum.num 0, marginRight := JsNum.num 0,
            marginBottom := JsNum.num 0, marginLeft := JsNum.num 0,
            borderTop := JsNum.num 0, borderRight := JsNum.num 0,
            borderBottom := JsNum.num 0, borderLeft := JsNum.num 0,
            scrollWidth := 300, rectHeight := 200, offsetWidth := 300,
            offsetHeight := 200 }, rfl, rfl, rfl, rfl, rfl, rfl, ?_, ?_, ?_⟩
  · norm_num
  · norm_num
  · simp only [adjustA, adjustB, JsNum.add, JsNum.mul, ne_eq,
      Prod.mk.injEq, JsNum.num.injEq]
    norm_num

/-- Claim C4: in every trace in which the load signal fires exactly once, the
number of forwarding calls is exactly one for the load signal plus one per
change notification delivered by the observer afterwards; change events before
the load deliver no notification and contribute nothing, and no signal ever
produces more than one call or is batched with another. -/
theorem rpc_once_per_signal (pre post : List Event)
    (hpre : Event.load ∉ pre) (hpost : Event.load ∉ post) :
    rpcCalls 0 (pre ++ Event.load :: post) = 1 + post.count Event.change := by
  rw [rpcCalls_append_of_no_load pre _ hpre]
  simp [rpcCalls, rpcCalls_one_of_no_load post hpost]

/-- Claim C4 witness: a pre-load change, the load, then two changes make
exactly three forwarding calls (one for the load, one per observed change). -/
theorem rpc_once_per_signal_witness :
    rpcCalls 0 ([Event.change] ++ Event.load :: [Event.change, Event.change])
      = 1 + List.count Event.change [Event.change, Event.change] :=
  rpc_once_per_signal [Event.change] [Event.change, Event.change]
    (by decide) (by decide)

/-- Claim C5: no forwarding call occurs before the initial load signal has
fired — a trace containing no load event produces zero forwarding calls. -/
theorem no_rpc_before_load (es : List Event) (h : Event.load ∉ es) :
    rpcCalls 0 es = 0 :=
  rpcCalls_zero_of_no_load es h

/-- Claim C5 witness: two change events with no load produce no call. -/
theorem no_rpc_before_load_witness :
    rpcCalls 0 [Event.change, Event.change] = 0 :=
  no_rpc_before_load [Event.change, Event.change] (by decide)

/-- Claim C6 counterexample: with `marginLeft` parsed to NaN (every other
input an ordinary non-negative value), Variant A forwards a NaN width, so the
forwarded pair does not satisfy the Dimensions invariant — the claim's
quantification over every computed-style input fails. -/
theorem dimensions_invariant_cex :
    ¬ ((adjustA nanMarginGeom).1.nonnegReal ∧
       (adjustA nanMarginGeom).2.nonnegReal) := by
  decide

/-- Claim C6 amended: when the left/right margin and border style values are
ordinary non-negative numbers and the layout queries (scrollWidth, rect
height, offset dimensions) are non-negative, both variants forward
non-negative non-NaN width and height. -/
theorem dimensions_invariant (g : Geometry)
    (hml : g.marginLeft.nonnegReal) (hbl : g.borderLeft.nonnegReal)
    (hbr : g.borderRight.nonnegReal) (hmr : g.marginRight.nonnegReal)
    (hsw : 0 ≤ g.scrollWidth) (hrh : 0 ≤ g.rectHeight)
    (how : 0 ≤ g.offsetWidth) (hoh : 0 ≤ g.offsetHeight) :
    ((adjustA g).1.nonnegReal ∧ (adjustA g).2.nonnegReal) ∧
    ((adjustB g).1.nonnegReal ∧ (adjustB g).2.nonnegReal) := by
  refine ⟨⟨?_, ?_⟩, ?_, ?_⟩
  · exact JsNum.nonnegReal_add
      (JsNum.nonnegReal_add
        (JsNum.nonnegReal_add (JsNum.nonnegReal_add hml hbl) hsw) hbr) hmr
  · exact hrh
  · exact mul_nonneg how (by norm_num)
  · exact mul_nonneg hoh (by norm_num)

/-- Claim C6 amended witness: the invariant holds at an ordinary geometry. -/
theorem dimensions_invariant_witness :
    ((adjustA plainGeom).1.nonnegReal ∧ (adjustA plainGeom).2.nonnegReal) ∧
    ((adjustB plainGeom).1.nonnegReal ∧ (adjustB plainGeom).2.nonnegReal) :=
  dimensions_invariant plainGeom (by decide) (by decide) (by decide)
    (by decide) (by norm_num [plainGeom]) (by norm_num [plainGeom])
    (by norm_num [plainGeom]) (by norm_num [plainGeom])

/-- Claim C7 counterexample: `marginTop` parses to NaN (a computed style value
for one of the body's margins), yet Variant A forwards the ordinary number 324
as width — the NaN does not flow into the forwarded width argument, refuting
the claim's "any of the computed style values for the body's margins or
borders". -/
theorem nan_flow_cex :
    nanTopGeom.marginTop = JsNum.nan ∧
    (adjustA nanTopGeom).1 = JsNum.num 324 := by
  constructor
  · rfl
  · simp only [nanTopGeom, adjustA, JsNum.add, JsNum.num.injEq]
    norm_num

/-- Claim C7 amended: if any of the four width-contributing style values
(left/right margin, left/right border) parses to NaN, Variant A still performs
exactly one forwarding call and the forwarded width is NaN; a NaN in a
top/bottom margin or border does not reach the forwarded values. -/
theorem nan_flows_into_width (g : Geometry)
    (h : g.marginLeft = JsNum.nan ∨ g.borderLeft = JsNum.nan ∨
         g.borderRight = JsNum.nan ∨ g.marginRight = JsNum.nan) :
    (adjustA g).1 = JsNum.nan ∧
    (adjustA_effects g).countP Effect.isRpc = 1 := by
  constructor
  · rcases h with h | h | h | h <;>
      simp [adjustA, h, JsNum.nan_add, JsNum.add_nan]
  · simp [adjustA_effects, List.countP_cons, Effect.isRpc]

/-- Claim C7 amended witness: at the NaN-marginLeft geometry the forwarded
width is NaN and the forwarding call still happens exactly once. -/
theorem nan_flows_into_width_witness :
    (adjustA nanMarginGeom).1 = JsNum.nan ∧
    (adjustA_effects nanMarginGeom).countP Effect.isRpc = 1 :=
  nan_flows_into_width nanMarginGeom (Or.inl rfl)

/-- Claim C8 counterexample: Variant B's onload handler observes
`document.body`, which is not the document's root element, so the change
signals in Variant B are not notifications of the root element's
box-dimension changes. -/
theorem observe_target_cex : observeTargetB ≠ DomNode.documentElement := by
  decide

/-- Claim C8 amended: Variant A's observer is registered on the document's
root element (`document.documentElement`, line 29), while Variant B's is
registered on the body element (`document.body`, line 56). -/
theorem observe_targets :
    observeTargetA = DomNode.documentElement ∧
    observeTargetB = DomNode.body :=
  ⟨rfl, rfl⟩

/-- Claim C9: in both variants an `_adjust` invocation leaves the document
geometry unchanged, its only state change is appending the single forwarding
call with the computed pair to the outbound log, its effect trace contains
exactly one forwarding call, and it performs no document mutation. -/
theorem adjust_frame (w : World) :
    (adjustA_run w).geom = w.geom ∧
    (adjustA_run w).rpcLog = w.rpcLog ++ [adjustA w.geom] ∧
    (adjustB_run w).geom = w.geom ∧
    (adjustB_run w).rpcLog = w.rpcLog ++ [adjustB w.geom] ∧
    (adjustA_effects w.geom).countP Effect.isRpc = 1 ∧
    (adjustB_effects w.geom).countP Effect.isRpc = 1 ∧
    Effect.writeDocument ∉ adjustA_effects w.geom ∧
    Effect.writeDocument ∉ adjustB_effects w.geom := by
  refine ⟨rfl, rfl, rfl, rfl, ?_, ?_, ?_, ?_⟩ <;>
    simp [adjustA_effects, adjustB_effects, List.countP_cons, Effect.isRpc]

/-- Claim C10: both variants are deterministic — two invocations reading
identical document geometry emit identical effect traces and append identical
forwarded pairs, regardless of any other state such as the prior call log. -/
theorem adjust_deterministic (w1 w2 : World) (h : w1.geom = w2.geom) :
    (adjustA_run w1).rpcLog.drop w1.rpcLog.length
      = (adjustA_run w2).rpcLog.drop w2.rpcLog.length ∧
    (adjustB_run w1).rpcLog.drop w1.rpcLog.length
      = (adjustB_run w2).rpcLog.drop w2.rpcLog.length ∧
    adjustA_effects w1.geom = adjustA_effects w2.geom ∧
    adjustB_effects w1.geom = adjustB_effects w2.geom := by
  simp [adjustA_run, adjustB_run, h]

/-- Claim C10 witness: two worlds with the same geometry but different call
histories forward the same new pairs and emit the same traces. -/
theorem adjust_deterministic_witness :
    (adjustA_run plainWorld1).rpcLog.drop plainWorld1.rpcLog.length
      = (adjustA_run plainWorld2).rpcLog.drop plainWorld2.rpcLog.length ∧
    (adjustB_run plainWorld1).rpcLog.drop plainWorld1.rpcLog.length
      = (adjustB_run plainWorld2).rpcLog.drop plainWorld2.rpcLog.length ∧
    adjustA_effects plainWorld1.geom = adjustA_effects plainWorld2.geom ∧
    adjustB_effects plainWorld1.geom = adjustB_effects plainWorld2.geom :=
  adjust_deterministic plainWorld1 plainWorld2 rfl

end Taco
